import Mathlib

/-!
Verification development for the recursive doubt engine
(`src/doubt_engine_basic.py`).

Modelling conventions (shallow embedding):
* Python `str` is modelled as `List Char` (`Str`); string methods
  (`lower`, `in`, `count`, `split`, slicing) are re-implemented below with
  the same semantics on character lists.
* Python `float` confidences are modelled as exact rationals `ℚ`; the
  decimal literals of the source (`0.4`, …, `0.9`) are given as reduced
  rationals (`Rat.mk'`) together with lemmas identifying them with the
  corresponding decimal literals.
* `hash(text[:100])` is modelled by the bounded prefix `text.take 100`
  itself (an injective fingerprint; the Python hash is collision-free on
  every text actually reached in the theorems below).
* The in-place mutation of the caller's `visited` set (`visited.add`) is
  modelled by state passing: the engine returns the result together with
  the post-state of the set that was passed in; recursive calls receive
  `visited.copy()` in the source, hence in the model the child simply
  receives the extended list and its post-state is discarded.
* The recursion of `DoubtEngine.doubt` is bounded by `max_depth`; the
  model uses a structurally decreasing fuel argument which is initialised
  with `max_depth - depth`, exactly the number of levels the source can
  still descend.
-/

/-- Python strings are modelled as lists of characters. -/
abbrev Str := List Char

/-- Literal helper: the character list of a Lean string literal. -/
def cs (s : String) : Str := s.data

/-- The apostrophe character (kept out of string literals). -/
def apos : Char := '\''

/-- Python `str.lower()` (ASCII case folding, as used by the source's
keyword matching). -/
def lowerStr (s : Str) : Str := s.map Char.toLower

/-- Boolean prefix test on character lists. -/
def isPrefB : Str → Str → Bool
  | [], _ => true
  | _ :: _, [] => false
  | a :: as, b :: bs => a == b && isPrefB as bs

/-- Python substring containment `needle in hay`. -/
def isSubB (needle : Str) : Str → Bool
  | [] => needle.isEmpty
  | c :: rest => isPrefB needle (c :: rest) || isSubB needle rest

/-- Worker for `countSubstr`: scans the haystack left to right, skipping
over a match once found (Python's non-overlapping `str.count`). -/
def countSubstrGo (needle : Str) : Str → Nat → Nat
  | [], _ => 0
  | _ :: rest, Nat.succ skip => countSubstrGo needle rest skip
  | c :: rest, 0 =>
    if isPrefB needle (c :: rest) then
      1 + countSubstrGo needle rest (needle.length - 1)
    else
      countSubstrGo needle rest 0

/-- Python `hay.count(needle)`: non-overlapping occurrence count. -/
def countSubstr (needle hay : Str) : Nat :=
  if needle.isEmpty then hay.length + 1 else countSubstrGo needle hay 0

/-- Worker for `pySplit` accumulating the current word (reversed). -/
def pySplitGo (acc : Str) : Str → List Str
  | [] => if acc.isEmpty then [] else [acc.reverse]
  | c :: rest =>
    if c.isWhitespace then
      if acc.isEmpty then pySplitGo [] rest else acc.reverse :: pySplitGo [] rest
    else
      pySplitGo (c :: acc) rest

/-- Python `str.split()`: split on whitespace runs, dropping empty words. -/
def pySplit (s : Str) : List Str := pySplitGo [] s

/-- Decimal rendering of a natural number (Python `str(n)` inside
f-strings). -/
def natStr (n : Nat) : Str := (Nat.repr n).data

/-- Worker for `distinct`. -/
def distinctAux (seen : List Str) : List Str → List Str
  | [] => []
  | c :: rest =>
    if seen.contains c then distinctAux seen rest
    else c :: distinctAux (c :: seen) rest

/-- Distinct elements in order of first occurrence (the key set of the
Python `category_counts` dictionary). -/
def distinct (l : List Str) : List Str := distinctAux [] l

/-- The source's confidence literal `0.4`. -/
def c04 : ℚ := Rat.mk' 2 5 (by decide) (by decide)

/-- The source's confidence literal `0.5`. -/
def c05 : ℚ := Rat.mk' 1 2 (by decide) (by decide)

/-- The source's confidence literal `0.6`. -/
def c06 : ℚ := Rat.mk' 3 5 (by decide) (by decide)

/-- The source's confidence literal `0.7`. -/
def c07 : ℚ := Rat.mk' 7 10 (by decide) (by decide)

/-- The source's confidence literal `0.8`. -/
def c08 : ℚ := Rat.mk' 4 5 (by decide) (by decide)

/-- The source's confidence literal `0.85`. -/
def c085 : ℚ := Rat.mk' 17 20 (by decide) (by decide)

/-- The source's confidence literal `0.9`. -/
def c09 : ℚ := Rat.mk' 9 10 (by decide) (by decide)

/-- A single doubt question (`@dataclass Doubt`). -/
structure Doubt where
  category : Str
  question : Str
  confidence : ℚ
deriving DecidableEq, Repr

/-- Result of doubting an input (`@dataclass DoubtResult`). -/
structure DoubtResult where
  original : Str
  doubts : List Doubt
  doubt_score : ℚ
  insight : Str
  depth : Nat
deriving DecidableEq, Repr

/-- Category tag of the truth rule. -/
def truthCat : Str := cs "truth"

/-- Category tag of the completeness rule. -/
def completenessCat : Str := cs "completeness"

/-- Category tag of the assumptions rule. -/
def assumptionsCat : Str := cs "assumptions"

/-- Category tag of the bias rule. -/
def biasCat : Str := cs "bias"

/-- Category tag of the logical-consistency rule. -/
def logicCat : Str := cs "logical_consistency"

/-- Category tag of the evidence rule. -/
def evidenceCat : Str := cs "evidence"

/-- Category tag of the context rule. -/
def contextCat : Str := cs "context"

/-- Category tag of the temporal rule. -/
def temporalCat : Str := cs "temporal"

/-- Category tag of the scope rule. -/
def scopeCat : Str := cs "scope"

/-- Category tag of the self-awareness rule. -/
def selfCat : Str := cs "self-awareness"

/-- Question emitted per absolute-claim word by `_doubt_truth`. -/
def truthQ (w : Str) : Str :=
  cs "Is " ++ [apos] ++ w ++ [apos] ++ cs " accurate? Can we verify this?"

/-- Second question of `_doubt_truth`. -/
def truthQ2 : Str := cs "Is this claim supported by evidence?"

/-- First question of `_doubt_completeness`. -/
def compQ1 : Str := cs "Is there missing context or information?"

/-- Second question of `_doubt_completeness`. -/
def compQ2 : Str := cs "Are there too many uncertainties? What would make this more certain?"

/-- Third question of `_doubt_completeness`. -/
def compQ3 : Str := cs "Is this statement complete? Are there missing parts?"

/-- Question emitted per indicator by `_doubt_assumptions`. -/
def assumQ (w : Str) : Str :=
  cs "What assumption is hidden behind " ++ [apos] ++ w ++ [apos] ++ cs "?"

/-- Second question of `_doubt_assumptions`. -/
def assumQ2 : Str := cs "What values or norms are being assumed here?"

/-- First question of `_doubt_bias`. -/
def biasQ1 : Str := cs "Is emotional language affecting objectivity?"

/-- Question emitted per loaded term by `_doubt_bias`. -/
def biasQ2 (w : Str) : Str :=
  cs "Is " ++ [apos] ++ w ++ [apos] ++ cs " a loaded term that assumes a conclusion?"

/-- Third question of `_doubt_bias`. -/
def biasQ3 : Str :=
  cs "Is there an " ++ [apos] ++ cs "us vs them" ++ [apos] ++
    cs " framing that might introduce bias?"

/-- Question emitted per contradiction pair by `_doubt_logical_consistency`. -/
def logicQ (a b : Str) : Str :=
  cs "Is there a contradiction between " ++ [apos] ++ a ++ [apos] ++ cs " and " ++
    [apos] ++ b ++ [apos] ++ cs "?"

/-- Second question of `_doubt_logical_consistency`. -/
def logicQ2 : Str := cs "Is there potential circular reasoning?"

/-- First question of `_doubt_evidence`. -/
def evidQ1 : Str := cs "Is there sufficient evidence to support this claim?"

/-- Second question of `_doubt_evidence`. -/
def evidQ2 : Str := cs "Where does this statistic come from? Is the source reliable?"

/-- First question of `_doubt_context`. -/
def ctxQ1 : Str := cs "Are pronouns clear? Is the context sufficient?"

/-- Second question of `_doubt_context`. -/
def ctxQ2 : Str := cs "Are technical terms explained? Is the context clear for all readers?"

/-- Question of `_doubt_temporal` for always/never. -/
def tempQ1 : Str := cs "Is this claim valid across all time? Could circumstances change?"

/-- Question of `_doubt_temporal` for now/currently. -/
def tempQ2 : Str := cs "Is this still true? Has the situation changed?"

/-- Question emitted per universal quantifier by `_doubt_scope`. -/
def scopeQ (w : Str) : Str :=
  cs "Does " ++ [apos] ++ w ++ [apos] ++ cs " apply universally? Are there exceptions?"

/-- Second question of `_doubt_scope`. -/
def scopeQ2 : Str := cs "Is this trying to cover too much? Should it be more focused?"

/-- Depth-0 question of `_doubt_self`. -/
def selfQ0 : Str := cs "Can I question this? Am I capable of doubt?"

/-- First recursive-level question of `_doubt_self`. -/
def selfQ1 : Str := cs "Can I question my own questions? Is this recursive doubt?"

/-- Second recursive-level question of `_doubt_self`. -/
def selfQ2 : Str := cs "If I can doubt my doubts, what does this reveal about my capabilities?"

/-- Absolute-claim words checked by `_doubt_truth`. -/
def absolutes : List Str :=
  [cs "always", cs "never", cs "all", cs "none", cs "every", cs "impossible",
    cs "proven", cs "definitely", cs "certainly"]

/-- False-positive phrases excluded by `_doubt_truth`. -/
def truthExcl : List Str :=
  [cs "i always", cs "we always", cs "always doubt", cs "always question"]

/-- Hedging words of `_doubt_completeness`. -/
def vagueWords : List Str :=
  [cs "maybe", cs "perhaps", cs "might", cs "could", cs "possibly", cs "somewhat",
    cs "kind of"]

/-- Assumption indicators of `_doubt_assumptions`. -/
def assumInd : List Str :=
  [cs "obviously", cs "clearly", cs "of course", cs "naturally", cs "everyone knows",
    cs "it goes without saying"]

/-- Emotional words of `_doubt_bias`. -/
def emotionalWords : List Str :=
  [cs "amazing", cs "terrible", cs "horrible", cs "fantastic", cs "awful",
    cs "brilliant", cs "stupid", cs "idiotic"]

/-- Loaded terms of `_doubt_bias`. -/
def loadedTerms : List Str :=
  [cs "obviously wrong", cs "clearly false", cs "proven fact", cs "undeniable"]

/-- In-group/out-group phrases of `_doubt_bias`. -/
def usThemPhrases : List Str :=
  [cs "they always", cs "they never", cs "we know",
    cs "they don" ++ [apos] ++ cs "t understand"]

/-- Contradiction pairs of `_doubt_logical_consistency`. -/
def contradictionPairs : List (Str × Str) :=
  [(cs "always", cs "sometimes"), (cs "never", cs "sometimes"), (cs "all", cs "some"),
    (cs "none", cs "some"), (cs "proven", cs "might"), (cs "certain", cs "uncertain")]

/-- Evidence indicators of `_doubt_evidence`. -/
def evidenceInd : List Str :=
  [cs "study", cs "research", cs "data", cs "evidence", cs "proof", cs "shows",
    cs "demonstrates", cs "according to"]

/-- Factual-claim indicators of `_doubt_evidence`. -/
def factualInd : List Str :=
  [cs "is", cs "are", cs "was", cs "were", cs "fact", cs "true", cs "real"]

/-- Pronouns of `_doubt_context`. -/
def pronounWords : List Str :=
  [cs "it", cs "this", cs "that", cs "they", cs "them", cs "these", cs "those"]

/-- Technical terms of `_doubt_context`. -/
def technicalTerms : List Str :=
  [cs "algorithm", cs "neural", cs "quantum", cs "consciousness", cs "substrate"]

/-- Time indicators of `_doubt_temporal`. -/
def timeInd : List Str :=
  [cs "now", cs "currently", cs "recently", cs "always", cs "never", cs "forever"]

/-- Universal quantifiers of `_doubt_scope`. -/
def genInd : List Str :=
  [cs "all", cs "every", cs "everyone", cs "nobody", cs "nothing", cs "everything"]

/-- Negated-quantifier phrases excluded by `_doubt_scope`. -/
def scopeExcl : List Str := [cs "not all", cs "not every", cs "not everyone"]

/-- Emit a single doubt when the condition holds (one `doubts.append` guarded
by an `if` in the source). -/
def emitIf (b : Bool) (c q : Str) (conf : ℚ) : List Doubt :=
  if b then [⟨c, q, conf⟩] else []

/-- `DoubtEngine._doubt_truth`. -/
def doubtTruth (text : Str) : List Doubt :=
  let lt := lowerStr text
  let excl := truthExcl.any (fun p => isSubB p lt)
  absolutes.flatMap (fun w => emitIf (isSubB w lt && !excl) truthCat (truthQ w) c07) ++
    emitIf (isSubB (cs "is") lt && !isSubB (cs "because") lt &&
        !isSubB (cs "evidence") lt && decide (text.length > 50))
      truthCat truthQ2 c05

/-- `DoubtEngine._doubt_completeness`.  The third guard transcribes the
float comparison `count < len(text.split()) / 20` as `20 * count < len`. -/
def doubtCompleteness (text : Str) : List Doubt :=
  let lt := lowerStr text
  emitIf (isSubB (cs "?") text && !isSubB (cs "because") lt && !isSubB (cs "explain") lt)
      completenessCat compQ1 c04 ++
    emitIf (decide ((vagueWords.filter (fun w => isSubB w lt)).length > 2))
      completenessCat compQ2 c06 ++
    emitIf (decide (20 * (countSubstr (cs ".") text + countSubstr (cs "!") text +
        countSubstr (cs "?") text) < (pySplit text).length))
      completenessCat compQ3 c05

/-- `DoubtEngine._doubt_assumptions`. -/
def doubtAssumptions (text : Str) : List Doubt :=
  let lt := lowerStr text
  assumInd.flatMap (fun w => emitIf (isSubB w lt) assumptionsCat (assumQ w) c06) ++
    emitIf (isSubB (cs "should") lt || isSubB (cs "must") lt) assumptionsCat assumQ2 c05

/-- `DoubtEngine._doubt_bias`. -/
def doubtBias (text : Str) : List Doubt :=
  let lt := lowerStr text
  emitIf (decide ((emotionalWords.filter (fun w => isSubB w lt)).length > 1))
      biasCat biasQ1 c06 ++
    loadedTerms.flatMap (fun w => emitIf (isSubB w lt) biasCat (biasQ2 w) c07) ++
    emitIf (usThemPhrases.any (fun p => isSubB p lt)) biasCat biasQ3 c05

/-- `DoubtEngine._doubt_logical_consistency`. -/
def doubtLogicalConsistency (text : Str) : List Doubt :=
  let lt := lowerStr text
  contradictionPairs.flatMap
    (fun p => emitIf (isSubB p.1 lt && isSubB p.2 lt) logicCat (logicQ p.1 p.2) c08) ++
    emitIf (isSubB (cs "because") lt && decide (countSubstr (cs "because") text > 1))
      logicCat logicQ2 c05

/-- `DoubtEngine._doubt_evidence`. -/
def doubtEvidence (text : Str) : List Doubt :=
  let lt := lowerStr text
  let hasEvidence := evidenceInd.any (fun w => isSubB w lt)
  let hasFactual := factualInd.any (fun w => isSubB w lt)
  emitIf (hasFactual && !hasEvidence && decide (text.length > 30)) evidenceCat evidQ1 c06 ++
    emitIf (text.any Char.isDigit && isSubB (cs "%") text &&
        !isSubB (cs "study") lt && !isSubB (cs "research") lt)
      evidenceCat evidQ2 c07

/-- `DoubtEngine._doubt_context`. -/
def doubtContext (text : Str) : List Doubt :=
  let lt := lowerStr text
  let pronounCount := (pronounWords.filter (fun w => (pySplit lt).contains w)).length
  let technicalCount := (technicalTerms.filter (fun w => isSubB w lt)).length
  emitIf (decide (pronounCount > 3) && decide ((pySplit text).length < 50))
      contextCat ctxQ1 c05 ++
    emitIf (decide (technicalCount > 2) && !isSubB (cs "define") lt &&
        !isSubB (cs "mean") lt)
      contextCat ctxQ2 c04

/-- `DoubtEngine._doubt_temporal`. -/
def doubtTemporal (text : Str) : List Doubt :=
  let lt := lowerStr text
  let timeCount := (timeInd.filter (fun w => isSubB w lt)).length
  if timeCount > 0 then
    if isSubB (cs "always") lt || isSubB (cs "never") lt then [⟨temporalCat, tempQ1, c06⟩]
    else if isSubB (cs "now") lt || isSubB (cs "currently") lt then
      [⟨temporalCat, tempQ2, c04⟩]
    else []
  else []

/-- `DoubtEngine._doubt_scope`. -/
def doubtScope (text : Str) : List Doubt :=
  let lt := lowerStr text
  let excl := scopeExcl.any (fun p => isSubB p lt)
  genInd.flatMap (fun w => emitIf (isSubB w lt && !excl) scopeCat (scopeQ w) c07) ++
    emitIf (isSubB (cs "and") lt && decide (countSubstr (cs "and") text > 3))
      scopeCat scopeQ2 c04

/-- `DoubtEngine._doubt_self` (depth-dependent, text-independent). -/
def doubtSelf (_text : Str) (depth : Nat) : List Doubt :=
  if depth = 0 then [⟨selfCat, selfQ0, c08⟩]
  else if 1 ≤ depth then [⟨selfCat, selfQ1, c09⟩, ⟨selfCat, selfQ2, c085⟩]
  else []

/-- The full rule set, concatenated in the order of `DoubtEngine.doubt`
lines 110-119. -/
def allRules (text : Str) (depth : Nat) : List Doubt :=
  doubtTruth text ++ doubtCompleteness text ++ doubtAssumptions text ++
    doubtBias text ++ doubtLogicalConsistency text ++ doubtEvidence text ++
    doubtContext text ++ doubtTemporal text ++ doubtScope text ++
    doubtSelf text depth

/-- Sum of the confidences of a doubt list. -/
def confSum (l : List Doubt) : ℚ := (l.map (fun d => d.confidence)).sum

/-- The aggregation of `DoubtEngine.doubt` lines 129-135: mean confidence
clamped to 1, or 0 for an empty list. -/
def doubtScore (l : List Doubt) : ℚ :=
  if l = [] then 0 else min (confSum l / l.length) 1

/-- Rendering of `f-string` two-decimal float formatting for the mean
confidence (model of `{avg_confidence:.2f}`). -/
def formatAvg (q : ℚ) : Str :=
  let m := (Rat.floor (q * 100 + 1 / 2)).toNat
  natStr (m / 100) ++ cs "." ++ (if m % 100 < 10 then cs "0" else []) ++ natStr (m % 100)

/-- Insight of `_generate_insight` when no doubts were found. -/
def noDoubtsMsg0 : Str :=
  cs "No doubts found. Is this because the statement is perfect, or because I" ++
    [apos] ++ cs "m not doubting enough?"

/-- Insight of `_generate_insight` when no doubts were found at depth ≥ 1. -/
def noDoubtsMsg1 : Str :=
  cs "No further doubts. This suggests the previous doubts were valid, or I" ++
    [apos] ++ cs "ve reached a stable state."

/-- Insight of `_generate_insight` for recursive self-awareness doubts at
depth ≥ 1 (the four joined `insight_parts`). -/
def deepInsightMsg (k total : Nat) (avg : ℚ) : Str :=
  cs "I can doubt my own doubts (found " ++ natStr k ++
    cs " recursive doubts). This demonstrates recursive doubt-validation. I found " ++
    natStr total ++ cs " total doubts with average confidence " ++ formatAvg avg ++
    cs ". If I can question my own questions, this suggests meta-cognitive capability."

/-- The depth-0 message of the `recursive_doubts` branch of
`_generate_insight` (line 466 of the source). -/
def teaserMsg (total : Nat) : Str :=
  cs "I can question this (" ++ natStr total ++
    cs " doubts found). But can I question my questions? That would demonstrate recursive doubt."

/-- Count-bucket message for at least 8 doubts. -/
def msgComprehensive (n k : Nat) : Str :=
  cs "I found " ++ natStr n ++ cs " doubts across " ++ natStr k ++
    cs " categories. This shows comprehensive critical thinking capability."

/-- Count-bucket message for at least 5 doubts. -/
def msgFive (n : Nat) : Str :=
  cs "I found " ++ natStr n ++
    cs " doubts. This demonstrates the ability to question, analyze, and think critically."

/-- Count-bucket message for at least 3 doubts. -/
def msgThree (n : Nat) : Str :=
  cs "I found " ++ natStr n ++ cs " doubts. I" ++ [apos] ++
    cs "m capable of questioning and critical thinking."

/-- Count-bucket message when a high-confidence doubt exists. -/
def msgHighConf (n : Nat) : Str :=
  cs "I found " ++ natStr n ++
    cs " high-confidence doubts. This shows focused critical analysis."

/-- Fallback count-bucket message. -/
def msgMinimal (n : Nat) : Str :=
  cs "I found " ++ natStr n ++
    cs " doubt(s). I can question things. This is the beginning of critical thinking."

/-- `DoubtEngine._generate_insight`. -/
def genInsight (doubts : List Doubt) (depth : Nat) (_origText : Str) : Str :=
  if doubts = [] then
    if depth = 0 then noDoubtsMsg0 else noDoubtsMsg1
  else
    let categories := distinct (doubts.map (fun d => d.category))
    let recursiveDoubts := doubts.filter (fun d => d.category == selfCat && decide (1 ≤ depth))
    if recursiveDoubts ≠ [] then
      let total := doubts.length
      let avg := if doubts = [] then 0 else confSum doubts / doubts.length
      if 1 ≤ depth then deepInsightMsg recursiveDoubts.length total avg
      else teaserMsg total
    else
      let cnt := doubts.length
      let highConf := doubts.filter (fun d => c07 ≤ d.confidence)
      if 8 ≤ cnt then msgComprehensive cnt categories.length
      else if 5 ≤ cnt then msgFive cnt
      else if 3 ≤ cnt then msgThree cnt
      else if highConf ≠ [] then msgHighConf highConf.length
      else msgMinimal cnt

/-- Input truncation of `DoubtEngine.doubt` lines 78-79. -/
def truncate (t : Str) : Str := if t.length > 10000 then t.take 10000 else t

/-- Fingerprint `hash(text[:100])`, modelled injectively by the prefix. -/
def fingerprint (t : Str) : Str := t.take 100

/-- Cycle-guard insight. -/
def alreadyMsg : Str := cs "Already doubted this text (preventing infinite loop)"

/-- Depth-guard insight. -/
def depthLimitMsg : Str := cs "Recursion depth limit reached (safety)"

/-- An arbitrary Python value passed as `text`: either a string or a
non-string carrying its `str()` form. -/
inductive PyInput where
  | str (s : Str)
  | other (strForm : Str)

/-- The coercion of `DoubtEngine.doubt` lines 76-77: non-strings are
replaced by their string form. -/
def coerceInput : PyInput → Str
  | .str s => s
  | .other r => r

/-- `DoubtEngine.doubt`, state-passing form: returns the result together
with the post-state of the `visited` set that was passed in (the source
mutates the caller's set in place at line 94).  `fuel` bounds the number
of remaining recursion levels; it is initialised with `max_depth - depth`
by `doubtCall` below and is only consumed where the source recurses. -/
def doubtS (maxDepth : Nat) : Nat → Str → Nat → List Str → DoubtResult × List Str
  | fuel, text0, depth, visited =>
    let text := truncate text0
    let fp := fingerprint text
    if fp ∈ visited then
      (⟨text, [], 0, alreadyMsg, depth⟩, visited)
    else
      let visited1 := fp :: visited
      if maxDepth ≤ depth then
        (⟨text, [], 0, depthLimitMsg, depth⟩, visited1)
      else
        let base := allRules text depth
        let doubts :=
          if depth < maxDepth - 1 ∧ base ≠ [] then
            match fuel with
            | 0 => base
            | fuel' + 1 =>
              base ++ (base.take 5).flatMap
                (fun d => (doubtS maxDepth fuel' d.question (depth + 1) visited1).1.doubts)
          else base
        (⟨text, doubts, doubtScore doubts, genInsight doubts depth text, depth⟩, visited1)

/-- One call of `DoubtEngine.doubt`: result plus post-state of the caller's
`visited` argument. -/
def doubtCall (maxDepth : Nat) (text : Str) (depth : Nat) (visited : List Str) :
    DoubtResult × List Str :=
  doubtS maxDepth (maxDepth - depth) text depth visited

/-- The result of `DoubtEngine.doubt` (an engine constructed with
`max_depth = maxDepth`). -/
def doubt (maxDepth : Nat) (text : Str) (depth : Nat) (visited : List Str) : DoubtResult :=
  (doubtCall maxDepth text depth visited).1

/-- Well-formedness of an analysis result: bounded original text, score and
confidences in the unit interval (the record invariants of the data model). -/
def WellFormedResult (r : DoubtResult) : Prop :=
  r.original.length ≤ 10000 ∧ 0 ≤ r.doubt_score ∧ r.doubt_score ≤ 1 ∧
    ∀ x ∈ r.doubts, 0 ≤ x.confidence ∧ x.confidence ≤ 1

theorem c04_eq : c04 = 0.4 := by norm_num [c04, Rat.mk'_eq_divInt, Rat.divInt_eq_div]

theorem c05_eq : c05 = 0.5 := by norm_num [c05, Rat.mk'_eq_divInt, Rat.divInt_eq_div]

theorem c06_eq : c06 = 0.6 := by norm_num [c06, Rat.mk'_eq_divInt, Rat.divInt_eq_div]

theorem c07_eq : c07 = 0.7 := by norm_num [c07, Rat.mk'_eq_divInt, Rat.divInt_eq_div]

theorem c08_eq : c08 = 0.8 := by norm_num [c08, Rat.mk'_eq_divInt, Rat.divInt_eq_div]

theorem c085_eq : c085 = 0.85 := by norm_num [c085, Rat.mk'_eq_divInt, Rat.divInt_eq_div]

theorem c09_eq : c09 = 0.9 := by norm_num [c09, Rat.mk'_eq_divInt, Rat.divInt_eq_div]

theorem c04_bounds : 0 ≤ c04 ∧ c04 ≤ 1 := by rw [c04_eq]; norm_num

theorem c05_bounds : 0 ≤ c05 ∧ c05 ≤ 1 := by rw [c05_eq]; norm_num

theorem c06_bounds : 0 ≤ c06 ∧ c06 ≤ 1 := by rw [c06_eq]; norm_num

theorem c07_bounds : 0 ≤ c07 ∧ c07 ≤ 1 := by rw [c07_eq]; norm_num

theorem c08_bounds : 0 ≤ c08 ∧ c08 ≤ 1 := by rw [c08_eq]; norm_num

theorem c085_bounds : 0 ≤ c085 ∧ c085 ≤ 1 := by rw [c085_eq]; norm_num

theorem c09_bounds : 0 ≤ c09 ∧ c09 ≤ 1 := by rw [c09_eq]; norm_num

theorem mem_emitIf {x : Doubt} {b : Bool} {c q : Str} {conf : ℚ}
    (h : x ∈ emitIf b c q conf) : x = ⟨c, q, conf⟩ := by
  unfold emitIf at h
  split at h
  · simpa using h
  · cases h

theorem doubtTruth_confOK (t : Str) :
    ∀ x ∈ doubtTruth t, 0 ≤ x.confidence ∧ x.confidence ≤ 1 := by
  intro x hx
  simp only [doubtTruth, List.mem_append, List.mem_flatMap] at hx
  rcases hx with ⟨w, -, hw⟩ | hw
  · rw [mem_emitIf hw]; exact c07_bounds
  · rw [mem_emitIf hw]; exact c05_bounds

theorem doubtCompleteness_confOK (t : Str) :
    ∀ x ∈ doubtCompleteness t, 0 ≤ x.confidence ∧ x.confidence ≤ 1 := by
  intro x hx
  simp only [doubtCompleteness, List.mem_append] at hx
  rcases hx with (hw | hw) | hw
  · rw [mem_emitIf hw]; exact c04_bounds
  · rw [mem_emitIf hw]; exact c06_bounds
  · rw [mem_emitIf hw]; exact c05_bounds

theorem doubtAssumptions_confOK (t : Str) :
    ∀ x ∈ doubtAssumptions t, 0 ≤ x.confidence ∧ x.confidence ≤ 1 := by
  intro x hx
  simp only [doubtAssumptions, List.mem_append, List.mem_flatMap] at hx
  rcases hx with ⟨w, -, hw⟩ | hw
  · rw [mem_emitIf hw]; exact c06_bounds
  · rw [mem_emitIf hw]; exact c05_bounds

theorem doubtBias_confOK (t : Str) :
    ∀ x ∈ doubtBias t, 0 ≤ x.confidence ∧ x.confidence ≤ 1 := by
  intro x hx
  simp only [doubtBias, List.mem_append, List.mem_flatMap] at hx
  rcases hx with (hw | ⟨w, -, hw⟩) | hw
  · rw [mem_emitIf hw]; exact c06_bounds
  · rw [mem_emitIf hw]; exact c07_bounds
  · rw [mem_emitIf hw]; exact c05_bounds

theorem doubtLogicalConsistency_confOK (t : Str) :
    ∀ x ∈ doubtLogicalConsistency t, 0 ≤ x.confidence ∧ x.confidence ≤ 1 := by
  intro x hx
  simp only [doubtLogicalConsistency, List.mem_append, List.mem_flatMap] at hx
  rcases hx with ⟨w, -, hw⟩ | hw
  · rw [mem_emitIf hw]; exact c08_bounds
  · rw [mem_emitIf hw]; exact c05_bounds

theorem doubtEvidence_confOK (t : Str) :
    ∀ x ∈ doubtEvidence t, 0 ≤ x.confidence ∧ x.confidence ≤ 1 := by
  intro x hx
  simp only [doubtEvidence, List.mem_append] at hx
  rcases hx with hw | hw
  · rw [mem_emitIf hw]; exact c06_bounds
  · rw [mem_emitIf hw]; exact c07_bounds

theorem doubtContext_confOK (t : Str) :
    ∀ x ∈ doubtContext t, 0 ≤ x.confidence ∧ x.confidence ≤ 1 := by
  intro x hx
  simp only [doubtContext, List.mem_append] at hx
  rcases hx with hw | hw
  · rw [mem_emitIf hw]; exact c05_bounds
  · rw [mem_emitIf hw]; exact c04_bounds

theorem doubtTemporal_confOK (t : Str) :
    ∀ x ∈ doubtTemporal t, 0 ≤ x.confidence ∧ x.confidence ≤ 1 := by
  intro x hx
  simp only [doubtTemporal] at hx
  split at hx
  · split at hx
    · rcases List.mem_singleton.mp hx with rfl
      exact c06_bounds
    · split at hx
      · rcases List.mem_singleton.mp hx with rfl
        exact c04_bounds
      · cases hx
  · cases hx

theorem doubtScope_confOK (t : Str) :
    ∀ x ∈ doubtScope t, 0 ≤ x.confidence ∧ x.confidence ≤ 1 := by
  intro x hx
  simp only [doubtScope, List.mem_append, List.mem_flatMap] at hx
  rcases hx with ⟨w, -, hw⟩ | hw
  · rw [mem_emitIf hw]; exact c07_bounds
  · rw [mem_emitIf hw]; exact c04_bounds

theorem doubtSelf_confOK (t : Str) (d : Nat) :
    ∀ x ∈ doubtSelf t d, 0 ≤ x.confidence ∧ x.confidence ≤ 1 := by
  intro x hx
  simp only [doubtSelf] at hx
  split at hx
  · rcases List.mem_singleton.mp hx with rfl
    exact c08_bounds
  · split at hx
    · simp only [List.mem_cons, List.mem_singleton] at hx
      rcases hx with rfl | rfl | h
      · exact c09_bounds
      · exact c085_bounds
      · cases h
    · cases hx

theorem allRules_confOK (t : Str) (d : Nat) :
    ∀ x ∈ allRules t d, 0 ≤ x.confidence ∧ x.confidence ≤ 1 := by
  intro x hx
  simp only [allRules, List.mem_append] at hx
  rcases hx with ((((((((h | h) | h) | h) | h) | h) | h) | h) | h) | h
  · exact doubtTruth_confOK t x h
  · exact doubtCompleteness_confOK t x h
  · exact doubtAssumptions_confOK t x h
  · exact doubtBias_confOK t x h
  · exact doubtLogicalConsistency_confOK t x h
  · exact doubtEvidence_confOK t x h
  · exact doubtContext_confOK t x h
  · exact doubtTemporal_confOK t x h
  · exact doubtScope_confOK t x h
  · exact doubtSelf_confOK t d x h

theorem doubtS_cycle (m f : Nat) (t : Str) (d : Nat) (v : List Str)
    (h : fingerprint (truncate t) ∈ v) :
    doubtS m f t d v = (⟨truncate t, [], 0, alreadyMsg, d⟩, v) := by
  rw [doubtS]
  simp only [if_pos h]

theorem doubtS_depthLimit (m f : Nat) (t : Str) (d : Nat) (v : List Str)
    (h1 : fingerprint (truncate t) ∉ v) (h2 : m ≤ d) :
    doubtS m f t d v =
      (⟨truncate t, [], 0, depthLimitMsg, d⟩, fingerprint (truncate t) :: v) := by
  rw [doubtS]
  simp only [if_neg h1, if_pos h2]

theorem doubtS_norec (m f : Nat) (t : Str) (d : Nat) (v : List Str)
    (h1 : fingerprint (truncate t) ∉ v) (h2 : ¬ m ≤ d)
    (h3 : ¬ (d < m - 1 ∧ allRules (truncate t) d ≠ [])) :
    doubtS m f t d v =
      (⟨truncate t, allRules (truncate t) d, doubtScore (allRules (truncate t) d),
          genInsight (allRules (truncate t) d) d (truncate t), d⟩,
        fingerprint (truncate t) :: v) := by
  rw [doubtS]
  simp only [if_neg h1, if_neg h2, if_neg h3]

theorem doubtS_rec (m f : Nat) (t : Str) (d : Nat) (v : List Str)
    (h1 : fingerprint (truncate t) ∉ v) (h2 : d < m - 1)
    (h3 : allRules (truncate t) d ≠ []) :
    doubtS m (f + 1) t d v =
      (⟨truncate t,
          allRules (truncate t) d ++ ((allRules (truncate t) d).take 5).flatMap
            (fun x => (doubtS m f x.question (d + 1)
              (fingerprint (truncate t) :: v)).1.doubts),
          doubtScore (allRules (truncate t) d ++ ((allRules (truncate t) d).take 5).flatMap
            (fun x => (doubtS m f x.question (d + 1)
              (fingerprint (truncate t) :: v)).1.doubts)),
          genInsight (allRules (truncate t) d ++ ((allRules (truncate t) d).take 5).flatMap
            (fun x => (doubtS m f x.question (d + 1)
              (fingerprint (truncate t) :: v)).1.doubts)) d (truncate t), d⟩,
        fingerprint (truncate t) :: v) := by
  have h2' : ¬ m ≤ d := by omega
  rw [doubtS]
  simp only [if_neg h1, if_neg h2', if_pos (And.intro h2 h3)]

theorem doubtS_score_spec (m f : Nat) (t : Str) (d : Nat) (v : List Str) :
    (doubtS m f t d v).1.doubt_score = doubtScore (doubtS m f t d v).1.doubts := by
  rw [doubtS]
  split
  · simp [doubtScore]
  · split
    · simp [doubtScore]
    · rfl

theorem doubtS_original (m f : Nat) (t : Str) (d : Nat) (v : List Str) :
    (doubtS m f t d v).1.original = truncate t := by
  rw [doubtS]
  split
  · rfl
  · split <;> rfl

theorem doubtS_depth (m f : Nat) (t : Str) (d : Nat) (v : List Str) :
    (doubtS m f t d v).1.depth = d := by
  rw [doubtS]
  split
  · rfl
  · split <;> rfl

theorem doubtS_post (m f : Nat) (t : Str) (d : Nat) (v : List Str) :
    (doubtS m f t d v).2 =
      if fingerprint (truncate t) ∈ v then v else fingerprint (truncate t) :: v := by
  rw [doubtS]
  split
  · rfl
  · split <;> rfl

theorem doubtS_confOK (m : Nat) :
    ∀ (f : Nat) (t : Str) (d : Nat) (v : List Str),
      ∀ x ∈ (doubtS m f t d v).1.doubts, 0 ≤ x.confidence ∧ x.confidence ≤ 1 := by
  intro f
  induction f with
  | zero =>
    intro t d v x hx
    by_cases h1 : fingerprint (truncate t) ∈ v
    · rw [doubtS_cycle m 0 t d v h1] at hx
      cases hx
    · by_cases h2 : m ≤ d
      · rw [doubtS_depthLimit m 0 t d v h1 h2] at hx
        cases hx
      · rw [doubtS] at hx
        simp only [if_neg h1, if_neg h2] at hx
        split at hx
        · exact allRules_confOK (truncate t) d x hx
        · exact allRules_confOK (truncate t) d x hx
  | succ f ih =>
    intro t d v x hx
    by_cases h1 : fingerprint (truncate t) ∈ v
    · rw [doubtS_cycle m (f + 1) t d v h1] at hx
      cases hx
    · by_cases h2 : m ≤ d
      · rw [doubtS_depthLimit m (f + 1) t d v h1 h2] at hx
        cases hx
      · by_cases h3 : d < m - 1 ∧ allRules (truncate t) d ≠ []
        · rw [doubtS_rec m f t d v h1 h3.1 h3.2] at hx
          simp only [List.mem_append, List.mem_flatMap] at hx
          rcases hx with h | ⟨q, -, h⟩
          · exact allRules_confOK (truncate t) d x h
          · exact ih q.question (d + 1) (fingerprint (truncate t) :: v) x h
        · rw [doubtS_norec m (f + 1) t d v h1 h2 h3] at hx
          exact allRules_confOK (truncate t) d x hx

theorem truncate_length_le (t : Str) : (truncate t).length ≤ 10000 := by
  unfold truncate
  split
  · exact List.length_take_le 10000 t
  · omega

theorem doubtScore_bounds (l : List Doubt)
    (h : ∀ x ∈ l, 0 ≤ x.confidence ∧ x.confidence ≤ 1) :
    0 ≤ doubtScore l ∧ doubtScore l ≤ 1 := by
  unfold doubtScore
  split
  · norm_num
  · refine ⟨le_min (div_nonneg ?_ (Nat.cast_nonneg _)) zero_le_one, min_le_right _ _⟩
    unfold confSum
    apply List.sum_nonneg
    intro a ha
    obtain ⟨x, hx, rfl⟩ := List.mem_map.mp ha
    exact (h x hx).1

theorem doubt_score_spec (m : Nat) (t : Str) (d : Nat) (v : List Str) :
    (doubt m t d v).doubt_score = doubtScore (doubt m t d v).doubts :=
  doubtS_score_spec m (m - d) t d v

theorem doubt_original (m : Nat) (t : Str) (d : Nat) (v : List Str) :
    (doubt m t d v).original = truncate t :=
  doubtS_original m (m - d) t d v

theorem doubt_depth_eq (m : Nat) (t : Str) (d : Nat) (v : List Str) :
    (doubt m t d v).depth = d :=
  doubtS_depth m (m - d) t d v

theorem doubt_confOK (m : Nat) (t : Str) (d : Nat) (v : List Str) :
    ∀ x ∈ (doubt m t d v).doubts, 0 ≤ x.confidence ∧ x.confidence ≤ 1 :=
  doubtS_confOK m (m - d) t d v

theorem doubt_cycle (m : Nat) (t : Str) (d : Nat) (v : List Str)
    (h : fingerprint (truncate t) ∈ v) :
    doubt m t d v = ⟨truncate t, [], 0, alreadyMsg, d⟩ := by
  unfold doubt doubtCall
  rw [doubtS_cycle m (m - d) t d v h]

theorem doubt_depthLimit (m : Nat) (t : Str) (d : Nat) (v : List Str)
    (h1 : fingerprint (truncate t) ∉ v) (h2 : m ≤ d) :
    doubt m t d v = ⟨truncate t, [], 0, depthLimitMsg, d⟩ := by
  unfold doubt doubtCall
  rw [doubtS_depthLimit m (m - d) t d v h1 h2]

theorem doubt_rec (m : Nat) (t : Str) (d : Nat) (v : List Str)
    (h1 : fingerprint (truncate t) ∉ v) (h2 : d < m - 1)
    (h3 : allRules (truncate t) d ≠ []) :
    (doubt m t d v).doubts =
      allRules (truncate t) d ++ ((allRules (truncate t) d).take 5).flatMap
        (fun x => (doubt m x.question (d + 1) (fingerprint (truncate t) :: v)).doubts) := by
  unfold doubt doubtCall
  have hm : m - d = (m - (d + 1)) + 1 := by omega
  rw [hm, doubtS_rec m (m - (d + 1)) t d v h1 h2 h3]

theorem doubt_wf (m : Nat) (t : Str) (d : Nat) (v : List Str) :
    WellFormedResult (doubt m t d v) := by
  have hb := doubtScore_bounds (doubt m t d v).doubts (doubt_confOK m t d v)
  refine ⟨?_, ?_, ?_, doubt_confOK m t d v⟩
  · rw [doubt_original]
    exact truncate_length_le t
  · rw [doubt_score_spec]
    exact hb.1
  · rw [doubt_score_spec]
    exact hb.2

/-- C1 (amended): for every input text and every starting depth that does
not exceed `max_depth`, the result returned by `doubt` never has depth
greater than `max_depth`; and any call made with `depth = max_depth` whose
fingerprint is not already in `visited` returns a result with an empty
doubts list and the depth-limit insight string.  (The original claim fails
for starting depths above `max_depth`, and for already-visited fingerprints
the cycle guard fires first; see the counterexample.) -/
theorem c1_depth_bound (m : Nat) (t : Str) (d : Nat) (v : List Str) :
    (d ≤ m → (doubt m t d v).depth ≤ m) ∧
      (d = m → fingerprint (truncate t) ∉ v →
        (doubt m t d v).doubts = [] ∧ (doubt m t d v).insight = depthLimitMsg) := by
  constructor
  · intro h
    rw [doubt_depth_eq]
    exact h
  · rintro rfl h
    rw [doubt_depthLimit _ t _ v h le_rfl]
    exact ⟨rfl, rfl⟩

/-- C1 fails as stated: with `max_depth = 3`, a call starting at depth 4
returns a result of depth 4 > 3, and a depth-3 call whose fingerprint is
already visited returns the cycle insight, not the depth-limit insight. -/
theorem c1_counterexample :
    ¬ ((doubt 3 (cs "x") 4 []).depth ≤ 3) ∧
      (doubt 3 (cs "x") 3 [fingerprint (cs "x")]).insight ≠ depthLimitMsg := by
  exact ⟨by decide, by decide⟩

theorem c1_witness :
    (doubt 3 (cs "x") 3 []).depth ≤ 3 ∧ (doubt 3 (cs "x") 3 []).doubts = [] ∧
      (doubt 3 (cs "x") 3 []).insight = depthLimitMsg :=
  ⟨(c1_depth_bound 3 (cs "x") 3 []).1 (by decide),
    ((c1_depth_bound 3 (cs "x") 3 []).2 rfl (by decide)).1,
    ((c1_depth_bound 3 (cs "x") 3 []).2 rfl (by decide)).2⟩

/-- C2: if the fingerprint of the (truncated) text is already in the
visited lineage, the call returns the empty-doubt result with the
already-analyzed insight; and in the recursion step every child call
receives the same copy `fingerprint :: visited` of the parent's visited
set extended with the parent's own fingerprint — independent of its
sibling branches, which in this pure model therefore cannot affect each
other. -/
theorem c2_cycle_guard (m : Nat) (t : Str) (d : Nat) (v : List Str) :
    (fingerprint (truncate t) ∈ v →
      doubt m t d v = ⟨truncate t, [], 0, alreadyMsg, d⟩) ∧
      (fingerprint (truncate t) ∉ v → d < m - 1 → allRules (truncate t) d ≠ [] →
        (doubt m t d v).doubts =
          allRules (truncate t) d ++ ((allRules (truncate t) d).take 5).flatMap
            (fun x => (doubt m x.question (d + 1)
              (fingerprint (truncate t) :: v)).doubts)) :=
  ⟨doubt_cycle m t d v, doubt_rec m t d v⟩

theorem c2_witness :
    doubt 3 (cs "x") 0 [fingerprint (cs "x")] =
        ⟨truncate (cs "x"), [], 0, alreadyMsg, 0⟩ ∧
      (doubt 2 (cs "Experts always agree.") 0 []).doubts =
        allRules (truncate (cs "Experts always agree.")) 0 ++
          ((allRules (truncate (cs "Experts always agree.")) 0).take 5).flatMap
            (fun x => (doubt 2 x.question 1
              (fingerprint (truncate (cs "Experts always agree.")) :: [])).doubts) :=
  ⟨(c2_cycle_guard 3 (cs "x") 0 [fingerprint (cs "x")]).1 (by decide),
    (c2_cycle_guard 2 (cs "Experts always agree.") 0 []).2
      (by decide) (by decide) (by decide)⟩

/-- C3: for every input — a string, the empty string, a non-string value
coerced to its string form, or an oversized string truncated to the
10000-character cap before any rule runs — `doubt` returns a well-formed
result record (total function, no exceptions in the model), whose
`original` field is exactly the truncated coerced input. -/
theorem c3_totality (m : Nat) (input : PyInput) (d : Nat) (v : List Str) :
    WellFormedResult (doubt m (coerceInput input) d v) ∧
      (doubt m (coerceInput input) d v).original = truncate (coerceInput input) :=
  ⟨doubt_wf m (coerceInput input) d v, doubt_original m (coerceInput input) d v⟩

/-- C4: whenever the fingerprint is fresh, `depth < max_depth - 1` and the
rule set produced at least one doubt, the engine recursively analyzes the
question text of the first 5 doubts (at most), in order, each at
`depth + 1` with a copy of the visited set extended by the current
fingerprint, and appends all doubts of the recursive results after the
current level's own doubts. -/
theorem c4_recursive_merge (m : Nat) (t : Str) (d : Nat) (v : List Str)
    (h1 : fingerprint (truncate t) ∉ v) (h2 : d < m - 1)
    (h3 : allRules (truncate t) d ≠ []) :
    (doubt m t d v).doubts =
      allRules (truncate t) d ++ ((allRules (truncate t) d).take 5).flatMap
        (fun x => (doubt m x.question (d + 1) (fingerprint (truncate t) :: v)).doubts) :=
  doubt_rec m t d v h1 h2 h3

theorem c4_witness :
    (doubt 3 (cs "Experts always agree.") 0 []).doubts =
      allRules (truncate (cs "Experts always agree.")) 0 ++
        ((allRules (truncate (cs "Experts always agree.")) 0).take 5).flatMap
          (fun x => (doubt 3 x.question 1
            (fingerprint (truncate (cs "Experts always agree.")) :: [])).doubts) :=
  c4_recursive_merge 3 (cs "Experts always agree.") 0 []
    (by decide) (by decide) (by decide)

/-- C5: the score of every returned result is 0 when the doubts list is
empty, and otherwise the mean of all confidences of the flattened doubts
list clamped to at most 1; in all cases it lies in the unit interval. -/
theorem c5_score_policy (m : Nat) (t : Str) (d : Nat) (v : List Str) :
    (doubt m t d v).doubt_score =
      (if (doubt m t d v).doubts = [] then 0
        else min (confSum (doubt m t d v).doubts / ((doubt m t d v).doubts.length : ℚ)) 1) ∧
      0 ≤ (doubt m t d v).doubt_score ∧ (doubt m t d v).doubt_score ≤ 1 := by
  have hb := doubtScore_bounds (doubt m t d v).doubts (doubt_confOK m t d v)
  refine ⟨?_, ?_, ?_⟩
  · rw [doubt_score_spec]
    rfl
  · rw [doubt_score_spec]
    exact hb.1
  · rw [doubt_score_spec]
    exact hb.2

/-- C8: the self-awareness rule contributes exactly one doubt at depth 0
and exactly two doubts at every depth ≥ 1, for every input text. -/
theorem c8_self_awareness_count (t : Str) (d : Nat) :
    (doubtSelf t d).length = if d = 0 then 1 else 2 := by
  unfold doubtSelf
  split
  · rfl
  · rw [if_pos (show 1 ≤ d by omega)]
    rfl

/-- C10: the post-state of the caller's `visited` argument: the call adds
the fingerprint of the (truncated) text to the caller's own set exactly
when it was absent, and it does so before the depth guard is evaluated —
in particular a call at `depth ≥ max_depth` that returns the depth-limit
result still extends the caller's set.  Only the sets handed to recursive
child calls are copies (cf. `doubtS`, whose children receive the extended
list by value and whose post-states are discarded). -/
theorem c10_visited_mutation (m : Nat) (t : Str) (d : Nat) (v : List Str) :
    ((doubtCall m t d v).2 =
      if fingerprint (truncate t) ∈ v then v else fingerprint (truncate t) :: v) ∧
      (m ≤ d → fingerprint (truncate t) ∉ v →
        (doubtCall m t d v).1.insight = depthLimitMsg ∧
          (doubtCall m t d v).2 = fingerprint (truncate t) :: v) := by
  constructor
  · exact doubtS_post m (m - d) t d v
  · intro h2 h1
    unfold doubtCall
    rw [doubtS_depthLimit m (m - d) t d v h1 h2]
    exact ⟨rfl, rfl⟩

theorem c10_witness :
    (doubtCall 3 (cs "y") 5 []).1.insight = depthLimitMsg ∧
      (doubtCall 3 (cs "y") 5 []).2 = fingerprint (truncate (cs "y")) :: [] :=
  (c10_visited_mutation 3 (cs "y") 5 []).2 (by decide) (by decide)

/-- C6 fails as stated: the empty string under the default configuration
(`max_depth = 3`) does not produce an empty doubts list — the
self-awareness rule fires unconditionally at depth 0 and recursion follows. -/
theorem c6_counterexample :
    ¬ ((doubt 3 (cs "") 0 []).doubts = [] ∧
      (doubt 3 (cs "") 0 []).doubt_score = 0 ∧
      (doubt 3 (cs "") 0 []).insight = noDoubtsMsg0) :=
  fun h => absurd h.1 (by decide)

/-- C6 (amended): calling `doubt` with the empty string under the default
configuration (`max_depth = 3`) returns 22 doubts (the unconditional
depth-0 self-awareness doubt plus the recursively merged ones), the
count-bucket insight for at least 8 doubts across 4 categories, and a
doubt score of 299/440 (the mean confidence) — not the "no doubts found"
message with score 0. -/
theorem c6_empty_input :
    (doubt 3 (cs "") 0 []).doubts.length = 22 ∧
      (doubt 3 (cs "") 0 []).insight = msgComprehensive 22 4 ∧
      (doubt 3 (cs "") 0 []).doubt_score = 299 / 440 := by
  refine ⟨by decide, by decide, ?_⟩
  have hmap : (doubt 3 (cs "") 0 []).doubts.map (fun x => x.confidence) =
      [c08, c04, c06, c09, c085, c04, c06, c09, c085, c04, c09, c085,
        c05, c04, c06, c09, c085, c05, c04, c06, c09, c085] := by decide
  have hlen : (doubt 3 (cs "") 0 []).doubts.length = 22 := by decide
  have hne : (doubt 3 (cs "") 0 []).doubts ≠ [] := by decide
  rw [doubt_score_spec]
  unfold doubtScore confSum
  rw [if_neg hne, hmap, hlen]
  norm_num [List.sum_cons, List.sum_nil, c04_eq, c05_eq, c06_eq, c08_eq, c085_eq,
    c09_eq, min_def]

/-- C7 fails as stated: on `"Experts always agree."` with `max_depth = 1`
three doubts fire, not two — the temporal rule also fires on "always"
(confidence 0.6). -/
theorem c7_counterexample :
    (doubt 1 (cs "Experts always agree.") 0 []).doubts.length = 3 ∧
      ⟨temporalCat, tempQ1, c06⟩ ∈ (doubt 1 (cs "Experts always agree.") 0 []).doubts :=
  ⟨by decide, by decide⟩

/-- C7 (amended): on `"Experts always agree."` with `max_depth = 1` the
fired doubts are exactly the truth doubt on "always" (confidence 0.7), the
temporal doubt (confidence 0.6) and the depth-0 self-awareness doubt
(confidence 0.8); the doubt score is their mean 0.7, and the insight is
the ≥3 count-bucket message (the depth-0 self-awareness insight branch of
the source is unreachable). -/
theorem c7_experts_always :
    (doubt 1 (cs "Experts always agree.") 0 []).doubts =
      [⟨truthCat, truthQ (cs "always"), c07⟩, ⟨temporalCat, tempQ1, c06⟩,
        ⟨selfCat, selfQ0, c08⟩] ∧
      (doubt 1 (cs "Experts always agree.") 0 []).doubt_score = 7 / 10 ∧
      (doubt 1 (cs "Experts always agree.") 0 []).insight = msgThree 3 := by
  refine ⟨by decide, ?_, by decide⟩
  have hmap : (doubt 1 (cs "Experts always agree.") 0 []).doubts.map
      (fun x => x.confidence) = [c07, c06, c08] := by decide
  have hlen : (doubt 1 (cs "Experts always agree.") 0 []).doubts.length = 3 := by decide
  have hne : (doubt 1 (cs "Experts always agree.") 0 []).doubts ≠ [] := by decide
  rw [doubt_score_spec]
  unfold doubtScore confSum
  rw [if_neg hne, hmap, hlen]
  norm_num [List.sum_cons, List.sum_nil, c06_eq, c07_eq, c08_eq, min_def]

/-- C9: evaluating the insight synthesizer on a doubt list containing one
self-awareness doubt at depth 0 yields the high-confidence count-bucket
message, not the recursion-teaser message: the `recursive_doubts` filter of
the source requires `depth >= 1`, so the depth-0 branch that would produce
the teaser (source line 466) is unreachable. -/
theorem c9_depth0_insight_bucket :
    genInsight [⟨selfCat, selfQ0, c08⟩] 0 (cs "x") = msgHighConf 1 ∧
      genInsight [⟨selfCat, selfQ0, c08⟩] 0 (cs "x") ≠ teaserMsg 1 :=
  ⟨by decide, by decide⟩
